import Mathlib

/-!
Verification development for the swiss-knife smart-wallet core.

Two subsystems are embedded shallowly:

* the headless Coinbase-Smart-Wallet wagmi connector
  (`src/unnamed/part_000`, with `src/unnamed/part_001` an earlier revision of
  the same connector whose `connect` / `disconnect` / `getAccounts` /
  `getChainId` / `isAuthorized` / `switchChain` bodies are textually
  identical) — connection-state machine, per-chain provider derivation, and
  the request-interception dispatcher that substitutes an ERC-4337 user
  operation flow for `eth_sendTransaction`;

* the WalletConnect session bridge (`src/app/wallet/bridge/page.tsx`) —
  `handleSessionRequest` dispatch and response logic, and the chain-switch
  requirement check of the dedicated `useEffect`.

External collaborators (viem clients, the bundler, WalletKit) are modelled as
oracle fields of an environment record; the definitions below mirror the
control flow of the TypeScript source, with one JavaScript runtime detail
made explicit: reading a property of the still-unassigned module variable
`walletClient` (declared `let walletClient: WalletClient;` and only assigned
inside `getProvider`) throws a `TypeError`, which we model as the error
`ConnErr.typeError`, distinct from the guarded `Error("Not connected")`
(`ConnErr.notConnected`).
-/

namespace SwissKnife

/-! ## Connector state model (src/unnamed/part_000 lines 32-33, 115-150) -/

/-- The wallet client that `getProvider` assigns to the module variable
`walletClient` via `createWalletClient({ account, chain, transport })`:
it carries the smart account (whose address may in general be absent, hence
the `account?.address` accesses in the source) and the resolved chain. -/
structure WClient where
  accountAddress : Option String
  chainId : Nat
deriving Repr, DecidableEq

/-- The connector closure's mutable state: `let connected = true;` and
`let walletClient: WalletClient;` (unassigned, i.e. `undefined`, until the
first successful `getProvider`). -/
structure ConnState where
  connected : Bool
  walletClient : Option WClient
deriving Repr, DecidableEq

/-- Initial state of a fresh connector instance (part_000 lines 32-33):
`connected` starts `true`, `walletClient` is still unassigned. -/
def initialConnState : ConnState := { connected := true, walletClient := none }

/-- Errors the connector operations can raise. `typeError` is the JavaScript
`TypeError` raised by a property access on the `undefined` module variable
`walletClient`; `notConnected` is `throw new Error("Not connected")`;
`chainNotConfigured` is wagmi's `ChainNotConfiguredError`; `switchChainError`
wraps an inner error as `new SwitchChainError(...)`; `ctorError` stands for a
failure inside the awaited `toCoinbaseSmartAccount` construction. -/
inductive ConnErr where
  | typeError
  | notConnected
  | chainNotConfigured
  | switchChainError (inner : ConnErr)
  | ctorError (msg : String)
deriving Repr, DecidableEq

/-- Environment of the connector: the configured chain allow-list
(`config.chains`, by id), the connector parameters `address` (the smart
wallet address) and the owner address derived from `ownerPrivateKey`, and an
oracle saying whether smart-account construction on a given chain fails. -/
structure ConnEnv where
  chains : List Nat
  address : String
  ownerAddress : String
  ctorFail : Nat → Option String

/-- Chain resolution inside `getProvider` (part_000 lines 118-119):
`config.chains.find((x) => x.id === chainId) ?? config.chains[0]`.
A `none` argument (JS `undefined`) never matches the `find`, so it falls
through to the first configured chain, as does a chain id absent from the
allow-list. -/
def resolveChain (env : ConnEnv) (chainId? : Option Nat) : Option Nat :=
  (match chainId? with
    | some cid => env.chains.find? (fun x => x == cid)
    | none => none).orElse (fun _ => env.chains.head?)

/-- `getProvider({ chainId })` (part_000 lines 115-150), restricted to its
state effect: resolve the chain (throwing `ChainNotConfiguredError` only when
resolution yields nothing, i.e. when the chain list is empty), construct the
smart account (which may fail), and assign the module variable
`walletClient` to a client bound to the smart account address and the
resolved chain. Returns the updated state and the resolved chain id. -/
def getProvider (env : ConnEnv) (st : ConnState) (chainId? : Option Nat) :
    Except ConnErr (ConnState × Nat) :=
  match resolveChain env chainId? with
  | none => .error .chainNotConfigured
  | some c =>
    match env.ctorFail c with
    | some m => .error (.ctorError m)
    | none =>
      .ok ({ st with walletClient := some { accountAddress := some env.address, chainId := c } }, c)

/-- `getChainId()` (part_000 lines 76-82): `const chainId = walletClient.chain?.id;
if (!chainId) throw new Error("Not connected"); return chainId;`.
When `walletClient` is still unassigned the property access itself throws a
`TypeError`; when it is assigned, a falsy (zero) chain id triggers the
guarded `Not connected` error. The `connected` flag is not consulted. -/
def getChainId (st : ConnState) : Except ConnErr Nat :=
  match st.walletClient with
  | none => .error .typeError
  | some w => if w.chainId = 0 then .error .notConnected else .ok w.chainId

/-- The account list read `walletClient.account?.address ? [addr] : []`
shared by `getAccounts` and `connect` (part_000 lines 56-58, 72-74),
evaluated on an assigned wallet client. -/
def accountList (w : WClient) : List String :=
  match w.accountAddress with
  | some a => [a]
  | none => []

/-- `getAccounts()` (part_000 lines 70-75): guarded by the `connected` flag,
then reads `walletClient.account?.address` — a `TypeError` if `walletClient`
was never assigned. -/
def getAccounts (st : ConnState) : Except ConnErr (List String) :=
  if st.connected = false then .error .notConnected
  else
    match st.walletClient with
    | none => .error .typeError
    | some w => .ok (accountList w)

/-- `isAuthorized()` (part_000 lines 83-90): `false` when not connected, else
`!!(await this.getAccounts()).length`. -/
def isAuthorized (st : ConnState) : Except ConnErr Bool :=
  if st.connected = false then .ok false
  else (getAccounts st).map (fun accounts => !accounts.isEmpty)

/-- `disconnect()` (part_000 lines 67-69): sets `connected = false` and
nothing else. -/
def disconnect (st : ConnState) : ConnState := { st with connected := false }

/-- Events emitted to the configured event sink (`config.emitter`). -/
inductive ConnEvent where
  | chainChanged (chainId : Nat)
  | disconnected
deriving Repr, DecidableEq

/-- `switchChain({ chainId })` (part_000 lines 91-98): re-runs `getProvider`
for the target chain (note: for an unlisted target this re-binds the wallet
client to the fallback chain before the membership check), then looks the
target up in `config.chains`; absence throws
`SwitchChainError(ChainNotConfiguredError)` with no event emitted, presence
fires `onChainChanged` (one `change` emission) and returns the chain.
The error branch carries the state as mutated so far and the events emitted
so far (none). -/
def switchChain (env : ConnEnv) (st : ConnState) (cid : Nat) :
    Except (ConnState × List ConnEvent × ConnErr) (ConnState × List ConnEvent × Nat) :=
  match getProvider env st (some cid) with
  | .error e => .error (st, [], e)
  | .ok (st1, _) =>
    match env.chains.find? (fun x => x == cid) with
    | none => .error (st1, [], .switchChainError .chainNotConfigured)
    | some c => .ok (st1, [.chainChanged cid], c)

/-- Result record of `connect` (part_000 lines 55-60, 64). -/
structure ConnectResult where
  accounts : List String
  chainId : Nat
deriving Repr, DecidableEq

/-- The `try` body of `connect({ chainId })` (part_000 lines 44-60):
derive a provider, read the active chain id, switch chains when the caller
requested a (truthy) chain id different from the active one, set
`connected = true`, and report the bound account address and the active
chain. Errors carry the state as mutated before the throw. -/
def connectAux (env : ConnEnv) (st : ConnState) (chainId? : Option Nat) :
    Except (ConnState × ConnErr) (ConnState × List ConnEvent × ConnectResult) :=
  match getProvider env st chainId? with
  | .error e => .error (st, e)
  | .ok (st1, _) =>
    match getChainId st1 with
    | .error e => .error (st1, e)
    | .ok currentChainId =>
      -- `if (chainId && currentChainId !== chainId)`: JS truthiness, so a
      -- missing or zero requested chain id skips the switch.
      if chainId?.getD 0 ≠ 0 ∧ currentChainId ≠ chainId?.getD 0 then
        match switchChain env st1 (chainId?.getD 0) with
        | .error (st2, _, e) => .error (st2, e)
        | .ok (st2, evs, chain) =>
          let st3 := { st2 with connected := true }
          .ok (st3, evs,
            { accounts := match st3.walletClient with
                | some w => accountList w
                | none => []
              chainId := chain })
      else
        let st3 := { st1 with connected := true }
        .ok (st3, [],
          { accounts := match st3.walletClient with
              | some w => accountList w
              | none => []
            chainId := currentChainId })

/-- `connect({ chainId })` (part_000 lines 43-66): the `try` body wrapped in
the `catch` that swallows every failure, sets `connected = false`, logs, and
returns `{ accounts: [], chainId: 0 }`. Total: it never raises. -/
def connect (env : ConnEnv) (st : ConnState) (chainId? : Option Nat) :
    ConnState × List ConnEvent × ConnectResult :=
  match connectAux env st chainId? with
  | .ok r => r
  | .error (stE, _) => ({ stE with connected := false }, [], { accounts := [], chainId := 0 })

/-! ## Connector request dispatcher (src/unnamed/part_000 lines 152-215) -/

/-- The transaction intent read from `args[0].params[0]` of an
`eth_sendTransaction` request: the code forwards `tx.to`, `tx.data`,
`tx.value` without transformation, so their representations stay opaque. -/
structure TxIntent where
  «to» : String
  data : Option String
  value : Option Nat
deriving Repr, DecidableEq

/-- One entry of the `calls` batch handed to
`bundlerClient.prepareUserOperation` (part_000 lines 162-169). -/
structure UOCall where
  «to» : String
  «from» : String
  data : Option String
  value : Option Nat
deriving Repr, DecidableEq

/-- The full argument record of `bundlerClient.prepareUserOperation`
(part_000 lines 161-176): the single-element `calls` batch plus the
fee/gas-limit overrides and the `initCode` override. -/
structure PrepareRequest where
  calls : List UOCall
  maxFeePerGas : Nat
  callGasLimit : Nat
  preVerificationGas : Nat
  verificationGasLimit : Nat
  maxPriorityFeePerGas : Nat
  initCode : String
deriving Repr, DecidableEq

/-- An ERC-4337 (entry point v0.6) user operation as returned by the bundler
client's `prepareUserOperation`; the submission spread
`{ ...userOp, initCode: "0x", signature }` overrides exactly the `initCode`
and `signature` fields. -/
structure UserOperation where
  sender : String
  nonce : Nat
  initCode : String
  callData : String
  callGasLimit : Nat
  verificationGasLimit : Nat
  preVerificationGas : Nat
  maxFeePerGas : Nat
  maxPriorityFeePerGas : Nat
  paymasterAndData : String
  signature : String
deriving Repr, DecidableEq

/-- `entryPoint06Address` imported from viem/account-abstraction. -/
def entryPoint06Address : String := "0x5FF137D4b0FDCD49DcA30c7CF57E578a026d2789"

/-- The `ownerWalletClient.writeContract` invocation submitting the user
operation (part_000 lines 184-192): `handleOps` on the entry-point contract
with a batch of signed operations and a beneficiary, sent from the owner's
own wallet client. -/
structure HandleOpsCall where
  contractAddress : String
  functionName : String
  ops : List UserOperation
  beneficiary : String
  submitter : String
deriving Repr, DecidableEq

/-- A typed-data payload: either a textual encoding (`args[0].params[1]`
arriving as a string) or already-structured data. -/
inductive TypedPayload where
  | str (s : String)
  | obj (domain : String) (types : String) (primaryType : String) (message : String)
deriving Repr, DecidableEq

/-- `JSON.parse` with the surrounding `try { ... } catch (e) {}` (part_000
lines 200-203 and page.tsx lines 297-300): a string payload is replaced by
its parse when the parse succeeds and kept unchanged when it fails; an
already-structured payload survives unchanged (in JS, `JSON.parse` of a
non-string stringifies it first and the parse of `"[object Object]"` throws
into the empty catch). -/
def tolerantParse (jsonParse : String → Option TypedPayload) :
    TypedPayload → TypedPayload
  | .str s =>
    match jsonParse s with
    | some parsed => parsed
    | none => .str s
  | .obj d t p m => .obj d t p m

/-- Oracles for the external collaborators of the request dispatcher: the
smart account address (`getAddress(account.address)`), the owner address,
the bundler's preparation step, the account's user-operation signing, the
owner wallet client's contract write (returning the submission transaction
hash), the account's typed-data signing, the raw wallet fallback for other
methods, and the ambient `JSON.parse`. -/
structure DispatchEnv where
  accountAddress : String
  ownerAddress : String
  prepareUserOperation : PrepareRequest → UserOperation
  signUserOperation : UserOperation → String
  writeContract : HandleOpsCall → String
  signTypedData : TypedPayload → String
  walletRequest : String → String
  jsonParse : String → Option TypedPayload

/-- Observable steps of the request dispatcher, in execution order. -/
inductive DispatchEffect where
  | preparedUserOp (req : PrepareRequest)
  | signedUserOp (op : UserOperation)
  | submitted (call : HandleOpsCall)
  | waitedForReceipt (hash : String)
  | signedTypedData (payload : TypedPayload)
  | forwarded (method : String)
deriving Repr, DecidableEq

/-- The requests the dispatcher distinguishes, keyed in the source by
`args[0].method` string comparison (part_000 lines 156, 198, 211). -/
inductive ConnRequest where
  | sendTransactionReq (tx : TxIntent)
  | signTypedDataV4Req (payload : TypedPayload)
  | otherReq (method : String)
deriving Repr, DecidableEq

/-- The intercepting `request` handler returned by `getProvider` (part_000
lines 154-214): `eth_sendTransaction` runs the user-operation
construction/signing/submission/inclusion-wait flow and returns the
submission transaction hash; `eth_signTypedData_v4` tolerantly parses
`params[1]` and signs it with the smart account's wallet client; everything
else is forwarded verbatim to `walletClient.request`. Returns the ordered
effect trace and the result. -/
def requestDispatch (env : DispatchEnv) : ConnRequest → List DispatchEffect × String
  | .sendTransactionReq tx =>
    let prepReq : PrepareRequest :=
      { calls := [{ «to» := tx.«to», «from» := env.accountAddress, data := tx.data, value := tx.value }]
        maxFeePerGas := 0
        callGasLimit := 1000000
        preVerificationGas := 1000000
        verificationGasLimit := 1000000
        maxPriorityFeePerGas := 0
        initCode := "0x" }
    let userOp := env.prepareUserOperation prepReq
    let userOpSignature := env.signUserOperation userOp
    let executeCall : HandleOpsCall :=
      { contractAddress := entryPoint06Address
        functionName := "handleOps"
        ops := [{ userOp with initCode := "0x", signature := userOpSignature }]
        beneficiary := env.ownerAddress
        submitter := env.ownerAddress }
    let executeTx := env.writeContract executeCall
    ([.preparedUserOp prepReq, .signedUserOp userOp, .submitted executeCall,
      .waitedForReceipt executeTx], executeTx)
  | .signTypedDataV4Req payload =>
    let typedData := tolerantParse env.jsonParse payload
    let signature := env.signTypedData typedData
    ([.signedTypedData typedData], signature)
  | .otherReq method =>
    ([.forwarded method], env.walletRequest method)

/-! ## Session bridge (src/app/wallet/bridge/page.tsx) -/

/-- `request.params[0]` of an `eth_sendTransaction` session request
(page.tsx lines 269-278). -/
structure TxParams where
  «to» : String
  value : Option Nat
  data : Option String
  gas : Option Nat
deriving Repr, DecidableEq

/-- The argument record handed to `walletClient.sendTransaction`
(page.tsx lines 272-278). -/
structure SendTxArgs where
  account : String
  «to» : String
  value : Option Nat
  data : Option String
  gas : Option Nat
deriving Repr, DecidableEq

/-- `request.params[0]` of a `wallet_addEthereumChain` session request
(page.tsx lines 326-330). -/
structure AddChainParams where
  chainId : String
  chainName : String
deriving Repr, DecidableEq

/-- A JSON-RPC result value: a string (hash, signature, or the `"0x"`
placeholder) or `null`. -/
inductive RpcResult where
  | str (s : String)
  | null
deriving Repr, DecidableEq

/-- The payload of a session response: a result or an error object. -/
inductive ResponsePayload where
  | result (r : RpcResult)
  | error (code : Nat) (message : String)
deriving Repr, DecidableEq

/-- A session response envelope `{ id, jsonrpc: "2.0", result | error }`
(page.tsx lines 347-351, 370-377). -/
structure RpcResponse where
  id : Nat
  jsonrpc : String
  payload : ResponsePayload
deriving Repr, DecidableEq

/-- An inbound session request: id, topic, the CAIP chain id string
`params.chainId` (e.g. `"eip155:8453"`), the method name, and the parameter
slots read by the various branches (the source keeps them in an untyped
`params` array; each branch reads only its own slot). -/
structure SessionRequest where
  id : Nat
  topic : String
  chainId : String
  method : String
  txParams : TxParams
  messageParam : String
  typedDataParam : TypedPayload
  switchChainIdParam : String
  addChainParams : AddChainParams
deriving Repr, DecidableEq

/-- Observable effects of `handleSessionRequest`: wallet-capability calls,
the add-chain notification toast, attempted session responses, and the
outcome toasts. -/
inductive BridgeEffect where
  | callSendTransaction (args : SendTxArgs)
  | callSignMessage (account : String) (raw : String)
  | callSignTypedData (account : String) (payload : TypedPayload)
  | callSwitchChain (chainId : Nat)
  | notifyAddChain (params : AddChainParams)
  | respondAttempt (topic : String) (resp : RpcResponse)
  | toastSuccess (title : String)
  | toastInfo (title : String)
  | toastError (message : String)
deriving Repr, DecidableEq

/-- Hexadecimal digit value, `0` for non-hex characters. -/
def hexDigitValue (c : Char) : Nat :=
  if c.isDigit then c.toNat - 48
  else if 97 ≤ c.toNat ∧ c.toNat ≤ 102 then c.toNat - 87
  else if 65 ≤ c.toNat ∧ c.toNat ≤ 70 then c.toNat - 55
  else 0

/-- Value of a hexadecimal numeral string. -/
def parseHexNat (s : String) : Nat :=
  s.foldl (fun acc c => acc * 16 + hexDigitValue c) 0

/-- JavaScript `parseInt` as applied to the well-formed chain-id strings this
code receives: a `0x`-prefixed string is read as hexadecimal
(`parseInt("0x2105") = 8453`), otherwise as decimal. -/
def jsParseInt (s : String) : Nat :=
  if s.startsWith ("0x") then parseHexNat (s.drop 2)
  else (s.toNat?).getD 0

/-- Oracles for the bridge's collaborators: the connected account address,
the wagmi wallet-client capabilities (each may fail with an error message),
WalletKit's `respondSessionRequest` (delivery may fail), and `JSON.parse`. -/
structure BridgeEnv where
  address : String
  sendTransaction : SendTxArgs → Except String String
  signMessage : String → Except String String
  signTypedData : TypedPayload → Except String String
  switchChainAsync : Nat → Except String Unit
  respondSessionRequest : String → RpcResponse → Except String Unit
  jsonParse : String → Option TypedPayload

/-- The approve-branch method dispatch of `handleSessionRequest`
(page.tsx lines 267-342): each recognized method class invokes its wallet
capability and produces the `result` value; unrecognized methods answer with
the placeholder `"0x"`. Returns the wallet-capability effects of the branch
together with either the `result` or — when the awaited capability throws —
the error, which the enclosing `catch` will receive. -/
def executeApproved (env : BridgeEnv) (req : SessionRequest) :
    List BridgeEffect × Except String RpcResult :=
  if req.method == "eth_sendTransaction" then
    let txParams := req.txParams
    let args : SendTxArgs :=
      { account := env.address, «to» := txParams.«to», value := txParams.value
        data := txParams.data, gas := txParams.gas }
    ([.callSendTransaction args], (env.sendTransaction args).map .str)
  else if req.method == "personal_sign" || req.method == "eth_sign" then
    let message := req.messageParam
    ([.callSignMessage env.address message], (env.signMessage message).map .str)
  else if req.method == "eth_signTypedData" || req.method == "eth_signTypedData_v3"
      || req.method == "eth_signTypedData_v4" then
    let typedData := tolerantParse env.jsonParse req.typedDataParam
    ([.callSignTypedData env.address typedData], (env.signTypedData typedData).map .str)
  else if req.method == "wallet_switchEthereumChain" then
    let requestedChainId := jsParseInt req.switchChainIdParam
    ([.callSwitchChain requestedChainId],
      (env.switchChainAsync requestedChainId).map (fun _ => .null))
  else if req.method == "wallet_addEthereumChain" then
    ([.notifyAddChain req.addChainParams], .ok .null)
  else
    ([], .ok (.str "0x"))

/-- The success response envelope (page.tsx lines 345-352). -/
def okResponse (id : Nat) (r : RpcResult) : RpcResponse :=
  { id := id, jsonrpc := "2.0", payload := .result r }

/-- The rejection response envelope (page.tsx lines 368-378). -/
def rejectResponse (id : Nat) : RpcResponse :=
  { id := id, jsonrpc := "2.0", payload := .error 4001 "User rejected the request" }

/-- The toast message composed in the `catch` block (page.tsx lines 436-445),
after the error-normalization walk has reduced the failure to a message
string (error values in this model are already the extracted messages). -/
def bridgeErrorMessage (approve : Bool) (e : String) : String :=
  (if approve then "Failed to approve request: " else "Failed to reject request: ") ++ e

/-- `handleSessionRequest(approve)` (page.tsx lines 253-450): on approval,
run the method dispatch, then attempt the success response and the success
toast; any throw lands in the `catch` block, which only resets local UI
state and shows an error toast — it sends no session response. On rejection,
attempt the 4001 response and the info toast, with the same `catch` backstop.
Returns the ordered effect trace. -/
def handleSessionRequest (env : BridgeEnv) (req : SessionRequest) (approve : Bool) :
    List BridgeEffect :=
  if approve then
    let effects := (executeApproved env req).1
    match (executeApproved env req).2 with
    | .ok result =>
      let resp := okResponse req.id result
      match env.respondSessionRequest req.topic resp with
      | .ok _ =>
        effects ++ [.respondAttempt req.topic resp, .toastSuccess ("Request approved")]
      | .error e =>
        effects ++ [.respondAttempt req.topic resp, .toastError (bridgeErrorMessage true e)]
    | .error e =>
      effects ++ [.toastError (bridgeErrorMessage true e)]
  else
    let resp := rejectResponse req.id
    match env.respondSessionRequest req.topic resp with
    | .ok _ => [.respondAttempt req.topic resp, .toastInfo ("Request rejected")]
    | .error e => [.respondAttempt req.topic resp, .toastError (bridgeErrorMessage false e)]

/-- Whether an effect is an attempted session response. -/
def isRespond : BridgeEffect → Bool
  | .respondAttempt _ _ => true
  | _ => false

/-- Whether an effect is a wallet-capability call (transaction, signature,
or chain switch). -/
def isWalletCall : BridgeEffect → Bool
  | .callSendTransaction _ => true
  | .callSignMessage _ _ => true
  | .callSignTypedData _ _ => true
  | .callSwitchChain _ => true
  | _ => false

/-- The wallet-side chain state observable by the bridge: the active chain
and the configured chain list. -/
structure WalletChainState where
  activeChainId : Nat
  configuredChains : List Nat
deriving Repr, DecidableEq

/-- Interpretation of one bridge effect on the wallet chain state: only a
chain-switch capability call can change the active chain; nothing the bridge
does changes the configured chain list. -/
def applyEffect (cs : WalletChainState) : BridgeEffect → WalletChainState
  | .callSwitchChain c => { cs with activeChainId := c }
  | _ => cs

/-- Interpretation of a whole effect trace on the wallet chain state. -/
def applyEffects (cs : WalletChainState) (effects : List BridgeEffect) : WalletChainState :=
  effects.foldl applyEffect cs

/-! ## Chain-switch requirement check (page.tsx lines 731-757) -/

/-- The signing/sending methods enumerated in the `useEffect`'s
`requiresChainSwitch` disjunction (page.tsx lines 743-749). -/
def signingSendingMethods : List String :=
  ["eth_sendTransaction", "eth_signTransaction", "eth_sign", "personal_sign",
   "eth_signTypedData", "eth_signTypedData_v3", "eth_signTypedData_v4"]

/-- The `requiresChainSwitch` condition (page.tsx lines 741-749): the active
chain differs from the requested chain AND the method is one of the seven
signing/sending methods. -/
def requiresChainSwitch (chainId requestedChainId : Nat) (method : String) : Bool :=
  chainId != requestedChainId &&
    (method == "eth_sendTransaction" || method == "eth_signTransaction"
      || method == "eth_sign" || method == "personal_sign"
      || method == "eth_signTypedData" || method == "eth_signTypedData_v3"
      || method == "eth_signTypedData_v4")

/-- Extraction of the declared chain id from the request's CAIP string
(page.tsx lines 737-738): `parseInt(params.chainId.split(":")[1])`. -/
def declaredChainId (caip : String) : Nat :=
  jsParseInt ((caip.splitOn (":")).getD 1 (""))

/-- The whole `useEffect` body (page.tsx lines 731-757) as a function from
the current request and active chain id to the `(needsChainSwitch,
targetChainId)` state pair; the guard mirrors the truthiness test
`if (currentSessionRequest && chainId)`. -/
def chainSwitchCheck (req : SessionRequest) (chainId : Nat) : Bool × Option Nat :=
  if chainId ≠ 0 then
    let requestedChainId := declaredChainId req.chainId
    let required := requiresChainSwitch chainId requestedChainId req.method
    (required, if required then some requestedChainId else none)
  else
    (false, none)

/-! ## Concrete fixtures for counterexamples and witnesses -/

/-- The accounts read of the connector state
(`walletClient.account?.address ? [...] : []` on the possibly-unassigned
module variable, as appearing in `connect`'s return). -/
def boundAccounts (st : ConnState) : List String :=
  match st.walletClient with
  | some w => accountList w
  | none => []

/-- A connector environment with a single configured chain (id 1) and fully
healthy account construction. -/
def envOneChain : ConnEnv :=
  { chains := [1], address := "0xCSW", ownerAddress := "0xOwner"
    ctorFail := fun _ => none }

/-- A connector environment whose configured chain list is empty. -/
def envNoChains : ConnEnv :=
  { chains := [], address := "0xCSW", ownerAddress := "0xOwner"
    ctorFail := fun _ => none }

/-- A connected connector state bound to chain 8453. -/
def stBound : ConnState :=
  { connected := true
    walletClient := some { accountAddress := some "0xCSW", chainId := 8453 } }

/-- A bridge environment whose wallet capabilities all succeed and whose
response delivery succeeds. -/
def envBridgeOk : BridgeEnv :=
  { address := "0xOwner"
    sendTransaction := fun _ => .ok ("0xhash")
    signMessage := fun _ => .ok ("0xsig")
    signTypedData := fun _ => .ok ("0xsig")
    switchChainAsync := fun _ => .ok ()
    respondSessionRequest := fun _ _ => .ok ()
    jsonParse := fun _ => none }

/-- A bridge environment identical to `envBridgeOk` except that sending a
transaction fails (e.g. the entry-point call reverts). -/
def envBridgeFailingSend : BridgeEnv :=
  { envBridgeOk with sendTransaction := fun _ => .error ("execution reverted") }

/-- Placeholder parameter slots for fixtures whose branch does not read
them. -/
def emptyTxParams : TxParams :=
  { «to» := "", value := none, data := none, gas := none }

/-- An approved `eth_sendTransaction` session request fixture. -/
def reqSendTx : SessionRequest :=
  { id := 7, topic := "topic1", chainId := "eip155:8453"
    method := "eth_sendTransaction"
    txParams := { «to» := "0xAAA", value := some 1, data := none, gas := none }
    messageParam := "", typedDataParam := .str ""
    switchChainIdParam := ""
    addChainParams := { chainId := "", chainName := "" } }

/-- A `wallet_addEthereumChain` session request fixture. -/
def reqAddChain : SessionRequest :=
  { id := 9, topic := "topic2", chainId := "eip155:1"
    method := "wallet_addEthereumChain"
    txParams := emptyTxParams
    messageParam := "", typedDataParam := .str ""
    switchChainIdParam := ""
    addChainParams := { chainId := "0x2105", chainName := "Base" } }

/-- An `eth_signTypedData_v4` session request fixture whose payload is a
non-parseable string. -/
def reqTypedData : SessionRequest :=
  { id := 5, topic := "topic3", chainId := "eip155:1"
    method := "eth_signTypedData_v4"
    txParams := emptyTxParams
    messageParam := "", typedDataParam := .str ("not json")
    switchChainIdParam := ""
    addChainParams := { chainId := "", chainName := "" } }

/-- A wallet chain state fixture. -/
def csExample : WalletChainState := { activeChainId := 1, configuredChains := [1, 8453] }

/-- A dispatcher environment with healthy oracles. -/
def envDispatch : DispatchEnv :=
  { accountAddress := "0xCSW", ownerAddress := "0xOwner"
    prepareUserOperation := fun _ =>
      { sender := "0xCSW", nonce := 0, initCode := "0x", callData := "0xdead"
        callGasLimit := 1000000, verificationGasLimit := 1000000
        preVerificationGas := 1000000, maxFeePerGas := 0, maxPriorityFeePerGas := 0
        paymasterAndData := "0x", signature := "0x" }
    signUserOperation := fun _ => "0xuserOpSig"
    writeContract := fun _ => "0xexecuteTx"
    signTypedData := fun _ => "0xsig"
    walletRequest := fun _ => "0x"
    jsonParse := fun _ => none }

/-! ## Theorems -/

/-- C1: for every `eth_sendTransaction` request handled by the connector's
request dispatcher with intent `{to, data, value}`, the prepared user
operation's call mirrors the intent unmodified, its fee fields are 0 and its
gas-limit fields 1,000,000 with empty `initCode`; the operation is submitted
exactly once, by the owner invoking the entry point's `handleOps` with a
single-element batch carrying the attached signature and the owner as
beneficiary; and the returned result is the inclusion transaction's hash. -/
theorem sendTransaction_userop_flow (env : DispatchEnv) (tx : TxIntent) :
    ∃ (userOp : UserOperation) (executeTx : String),
      let prepReq : PrepareRequest :=
        { calls := [{ «to» := tx.«to», «from» := env.accountAddress,
                      data := tx.data, value := tx.value }],
          maxFeePerGas := 0,
          callGasLimit := 1000000,
          preVerificationGas := 1000000,
          verificationGasLimit := 1000000,
          maxPriorityFeePerGas := 0,
          initCode := "0x" }
      let executeCall : HandleOpsCall :=
        { contractAddress := entryPoint06Address,
          functionName := "handleOps",
          ops := [{ userOp with
                    initCode := "0x",
                    signature := env.signUserOperation userOp }],
          beneficiary := env.ownerAddress,
          submitter := env.ownerAddress }
      userOp = env.prepareUserOperation prepReq ∧
      executeTx = env.writeContract executeCall ∧
      requestDispatch env (.sendTransactionReq tx) =
        ([.preparedUserOp prepReq, .signedUserOp userOp, .submitted executeCall,
          .waitedForReceipt executeTx], executeTx) ∧
      ((requestDispatch env (.sendTransactionReq tx)).1.countP
        (fun e => match e with | .submitted _ => true | _ => false)) = 1 := by
  exact ⟨_, _, rfl, rfl, rfl, rfl⟩

/-- C3: a chain switch is declared required iff the request's declared chain
id differs from the active chain id and the method is one of the seven
signing/sending methods; `wallet_switchEthereumChain` and
`wallet_addEthereumChain` never require a pre-switch. -/
theorem chainSwitch_required_iff (chainId requestedChainId : Nat) (method : String) :
    (requiresChainSwitch chainId requestedChainId method = true ↔
      chainId ≠ requestedChainId ∧ method ∈ signingSendingMethods) ∧
    requiresChainSwitch chainId requestedChainId "wallet_switchEthereumChain" = false ∧
    requiresChainSwitch chainId requestedChainId "wallet_addEthereumChain" = false := by
  refine ⟨?_, ?_, ?_⟩
  · simp only [requiresChainSwitch, signingSendingMethods, Bool.and_eq_true,
      Bool.or_eq_true, bne_iff_ne, beq_iff_eq, List.mem_cons, List.not_mem_nil, or_false]
    tauto
  · simp [requiresChainSwitch]
  · simp [requiresChainSwitch]

/-- C4: rejecting a session request responds with exactly
`{id, jsonrpc: "2.0", error: {code: 4001, message: "User rejected the
request"}}`, performs no wallet-capability call, and leaves the wallet chain
state unchanged. -/
theorem reject_responds_4001_only (env : BridgeEnv) (req : SessionRequest)
    (cs : WalletChainState) :
    (handleSessionRequest env req false).filter isRespond =
      [.respondAttempt req.topic
        { id := req.id, jsonrpc := "2.0"
          payload := .error 4001 "User rejected the request" }] ∧
    (∀ e ∈ handleSessionRequest env req false, isWalletCall e = false) ∧
    applyEffects cs (handleSessionRequest env req false) = cs := by
  unfold handleSessionRequest
  cases h : env.respondSessionRequest req.topic (rejectResponse req.id) <;>
    · simp only [rejectResponse] at h
      simp [h, rejectResponse, isRespond, isWalletCall, applyEffects, applyEffect]

/-- C5: a typed-data payload supplied as a string that fails to parse is
kept unchanged by the tolerant parse and handed as-is to the signing
capability, both in the connector's `eth_signTypedData_v4` branch and in the
bridge's typed-data branch; no parse exception escapes (both dispatchers
return normally, the only remaining failure channel being the signing
capability itself). -/
theorem typedData_tolerant_parse (env : DispatchEnv) (benv : BridgeEnv)
    (req : SessionRequest) (s : String)
    (h1 : env.jsonParse s = none) (h2 : benv.jsonParse s = none)
    (hm : req.method = "eth_signTypedData_v4") (hp : req.typedDataParam = .str s) :
    tolerantParse env.jsonParse (.str s) = .str s ∧
    requestDispatch env (.signTypedDataV4Req (.str s)) =
      ([.signedTypedData (.str s)], env.signTypedData (.str s)) ∧
    executeApproved benv req =
      ([.callSignTypedData benv.address (.str s)],
        (benv.signTypedData (.str s)).map .str) := by
  refine ⟨?_, ?_, ?_⟩
  · simp [tolerantParse, h1]
  · simp [requestDispatch, tolerantParse, h1]
  · simp [executeApproved, hm, hp, tolerantParse, h2]

/-- C9: an approved `wallet_addEthereumChain` request performs no
wallet-capability call, leaves the wallet chain state unchanged, only
surfaces a notification, and (when delivery succeeds) responds with result
`null`. -/
theorem addChain_acknowledged_only (env : BridgeEnv) (req : SessionRequest)
    (cs : WalletChainState) (hm : req.method = "wallet_addEthereumChain") :
    executeApproved env req = ([.notifyAddChain req.addChainParams], .ok .null) ∧
    applyEffects cs (handleSessionRequest env req true) = cs ∧
    (∀ e ∈ handleSessionRequest env req true, isWalletCall e = false) ∧
    (env.respondSessionRequest req.topic (okResponse req.id .null) = .ok () →
      handleSessionRequest env req true =
        [.notifyAddChain req.addChainParams,
         .respondAttempt req.topic (okResponse req.id .null),
         .toastSuccess ("Request approved")]) := by
  have hexec : executeApproved env req = ([.notifyAddChain req.addChainParams], .ok .null) := by
    simp [executeApproved, hm]
  refine ⟨hexec, ?_, ?_, ?_⟩
  · unfold handleSessionRequest
    rw [hexec]
    cases h : env.respondSessionRequest req.topic (okResponse req.id .null) <;>
      simp [h, applyEffects, applyEffect]
  · unfold handleSessionRequest
    rw [hexec]
    cases h : env.respondSessionRequest req.topic (okResponse req.id .null) <;>
      simp [h, isWalletCall]
  · intro hresp
    unfold handleSessionRequest
    rw [hexec]
    simp [hresp]

/-- C5 witness: the non-parseable string `"not json"` is signed as-is by the
connector's dispatcher. -/
theorem typedData_tolerant_parse_witness :
    requestDispatch envDispatch (.signTypedDataV4Req (.str ("not json"))) =
      ([.signedTypedData (.str ("not json"))], "0xsig") :=
  ((typedData_tolerant_parse envDispatch envBridgeOk reqTypedData ("not json")
      rfl rfl rfl rfl).2.1).trans rfl

/-- C9 witness: a concrete approved add-chain request leaves the wallet
chain state untouched and answers `null`. -/
theorem addChain_acknowledged_only_witness :
    applyEffects csExample (handleSessionRequest envBridgeOk reqAddChain true) = csExample ∧
    handleSessionRequest envBridgeOk reqAddChain true =
      [.notifyAddChain { chainId := "0x2105", chainName := "Base" },
       .respondAttempt ("topic2") (okResponse 9 .null),
       .toastSuccess ("Request approved")] :=
  ⟨(addChain_acknowledged_only envBridgeOk reqAddChain csExample rfl).2.1,
   ((addChain_acknowledged_only envBridgeOk reqAddChain csExample rfl).2.2.2 rfl).trans rfl⟩

/-- Helper: the effects produced by the approve-branch dispatch are
wallet-capability calls or the add-chain notification, never an attempted
session response. -/
theorem executeApproved_effects_not_respond (env : BridgeEnv) (req : SessionRequest) :
    ∀ x ∈ (executeApproved env req).1, isRespond x = false := by
  intro x hx
  unfold executeApproved at hx
  repeat' split at hx
  all_goals simp_all [isRespond]

/-- C2 counterexample: a concrete approved `eth_sendTransaction` request
whose execution fails. The handler produces only the capability call and an
error toast; it attempts no session response at all, so the
approved-then-failed request is left unanswered at the protocol layer. -/
theorem approvedFailure_unanswered_counterexample :
    (executeApproved envBridgeFailingSend reqSendTx).2 = .error ("execution reverted") ∧
    handleSessionRequest envBridgeFailingSend reqSendTx true =
      [.callSendTransaction
        { account := "0xOwner", «to» := "0xAAA", value := some 1, data := none, gas := none },
       .toastError ("Failed to approve request: execution reverted")] ∧
    (handleSessionRequest envBridgeFailingSend reqSendTx true).filter isRespond = [] := by
  refine ⟨rfl, rfl, rfl⟩

/-- C2 amended: when an approved session request's execution fails, the
`catch` block surfaces the normalized error to the external notifier (an
error toast) and sends no session response for that request id; the request
stays unanswered until the user explicitly rejects it (the separate 4001
path). -/
theorem approvedFailure_only_toast (env : BridgeEnv) (req : SessionRequest) (e : String)
    (h : (executeApproved env req).2 = .error e) :
    handleSessionRequest env req true =
      (executeApproved env req).1 ++ [.toastError (bridgeErrorMessage true e)] ∧
    (handleSessionRequest env req true).filter isRespond = [] := by
  have hmain : handleSessionRequest env req true =
      (executeApproved env req).1 ++ [.toastError (bridgeErrorMessage true e)] := by
    simp [handleSessionRequest, h]
  refine ⟨hmain, ?_⟩
  rw [hmain, List.filter_append]
  have h1 : ((executeApproved env req).1).filter isRespond = [] :=
    List.filter_eq_nil_iff.mpr (by
      intro a ha
      simp [executeApproved_effects_not_respond env req a ha])
  rw [h1]
  simp [isRespond]

/-- C2 amended witness: the concrete failing-send scenario instantiates the
amended theorem. -/
theorem approvedFailure_only_toast_witness :
    handleSessionRequest envBridgeFailingSend reqSendTx true =
      [.callSendTransaction
        { account := "0xOwner", «to» := "0xAAA", value := some 1, data := none, gas := none },
       .toastError ("Failed to approve request: execution reverted")] :=
  ((approvedFailure_only_toast envBridgeFailingSend reqSendTx ("execution reverted")
      rfl).1).trans rfl

/-- Helper: `getChainId` reads only the wallet client, so flipping the
`connected` flag cannot change its result. -/
theorem getChainId_set_connected (st : ConnState) (b : Bool) :
    getChainId { st with connected := b } = getChainId st := rfl

/-- Helper: shape of a successful `getProvider`: the chain resolved, account
construction succeeded, and the wallet client was re-bound to the resolved
chain with the configured smart wallet address. -/
theorem getProvider_ok_shape (env : ConnEnv) (st : ConnState) (chainId? : Option Nat)
    (st' : ConnState) (c : Nat) :
    getProvider env st chainId? = .ok (st', c) →
    resolveChain env chainId? = some c ∧ env.ctorFail c = none ∧
    st' = { st with
            walletClient := some { accountAddress := some env.address, chainId := c } } := by
  intro h
  unfold getProvider at h
  split at h
  · simp at h
  · rename_i c0 hres
    split at h
    · simp at h
    · rename_i hcf
      simp only [Except.ok.injEq, Prod.mk.injEq] at h
      obtain ⟨h1, h2⟩ := h
      subst h2
      exact ⟨hres, hcf, h1.symm⟩

/-- Helper: shape of a successful `switchChain`: the returned chain is the
requested one, exactly one chain-changed event fires, and the wallet client
is re-bound to the requested chain. -/
theorem switchChain_ok_shape (env : ConnEnv) (st : ConnState) (cid : Nat)
    (st2 : ConnState) (evs : List ConnEvent) (chain : Nat) :
    switchChain env st cid = .ok (st2, evs, chain) →
    chain = cid ∧ evs = [.chainChanged cid] ∧
    st2 = { st with
            walletClient := some { accountAddress := some env.address, chainId := cid } } := by
  intro h
  unfold switchChain at h
  split at h
  · simp at h
  · rename_i st1 c1 hp
    split at h
    · simp at h
    · rename_i c hf
      simp only [Except.ok.injEq, Prod.mk.injEq] at h
      obtain ⟨h1, h2, h3⟩ := h
      have hc : c = cid := by simpa using List.find?_some hf
      obtain ⟨hres, hcf, hst1⟩ := getProvider_ok_shape env st (some cid) st1 c1 hp
      have hc1 : c1 = c := by
        have hres2 : (env.chains.find? (fun y => y == cid)).orElse
            (fun _ => env.chains.head?) = some c1 := hres
        rw [hf] at hres2
        exact (by simpa [Option.orElse] using hres2 : c = c1).symm
      subst h1
      subst h2
      subst h3
      exact ⟨hc, rfl, hst1.trans (by rw [hc1, hc])⟩

/-- Helper: shape of a successful `connectAux`: the resulting state is
connected, the reported accounts are the bound account list, and the
reported chain id is the state's active chain id. -/
theorem connectAux_ok_shape (env : ConnEnv) (st : ConnState) (chainId? : Option Nat)
    (st' : ConnState) (evs : List ConnEvent) (res : ConnectResult) :
    connectAux env st chainId? = .ok (st', evs, res) →
    st'.connected = true ∧ res.accounts = boundAccounts st' ∧
    getChainId st' = .ok res.chainId := by
  intro h
  unfold connectAux at h
  split at h
  · simp at h
  · rename_i st1 c1 hp
    split at h
    · simp at h
    · rename_i cur hc
      split at h
      · rename_i hcond
        split at h
        · simp at h
        · rename_i st2 evs2 chain hs
          simp only [Except.ok.injEq, Prod.mk.injEq] at h
          obtain ⟨h1, h2, h3⟩ := h
          obtain ⟨hchain, hevs, hst2⟩ :=
            switchChain_ok_shape env st1 (chainId?.getD 0) st2 evs2 chain hs
          subst h1
          subst h3
          refine ⟨rfl, rfl, ?_⟩
          subst hchain
          rw [hst2]
          simp [getChainId, hcond.1]
      · rename_i hcond
        simp only [Except.ok.injEq, Prod.mk.injEq] at h
        obtain ⟨h1, h2, h3⟩ := h
        subst h1
        subst h3
        exact ⟨rfl, rfl, (getChainId_set_connected st1 true).trans hc⟩

/-- C6: `connect` never raises: on any internal failure (provider
construction, chain-id read, or chain switch) it lands in the `catch`,
transitions to disconnected, and returns `{accounts: [], chainId: 0}`; on
success it transitions to connected and returns the bound account address
(or an empty list if unbound) together with the active chain id. -/
theorem connect_swallows_failures (env : ConnEnv) (st : ConnState) (chainId? : Option Nat) :
    (∀ stE e, connectAux env st chainId? = .error (stE, e) →
      connect env st chainId? =
        ({ stE with connected := false }, [], { accounts := [], chainId := 0 })) ∧
    (∀ st' evs res, connectAux env st chainId? = .ok (st', evs, res) →
      connect env st chainId? = (st', evs, res) ∧ st'.connected = true ∧
      res.accounts = boundAccounts st' ∧ getChainId st' = .ok res.chainId) := by
  constructor
  · intro stE e h
    unfold connect
    rw [h]
  · intro st' evs res h
    have hshape := connectAux_ok_shape env st chainId? st' evs res h
    exact ⟨by unfold connect; rw [h], hshape.1, hshape.2.1, hshape.2.2⟩

/-- C6 witness: with an empty chain allow-list, provider construction fails
and `connect` swallows the failure into the disconnected empty result. -/
theorem connect_swallows_failures_witness :
    connect envNoChains initialConnState none =
      ({ connected := false, walletClient := none }, [],
       { accounts := [], chainId := 0 }) :=
  ((connect_swallows_failures envNoChains initialConnState none).1
      initialConnState .chainNotConfigured rfl).trans rfl

/-- C7 counterexample: chain id 2 is not in the configured allow-list, yet
provider/account construction for it succeeds by falling back to the first
configured chain instead of failing with `ChainNotConfigured`. -/
theorem getProvider_unlisted_falls_back_counterexample :
    envOneChain.chains.contains 2 = false ∧
    getProvider envOneChain initialConnState (some 2) =
      .ok ({ initialConnState with
             walletClient := some { accountAddress := some "0xCSW", chainId := 1 } }, 1) :=
  ⟨rfl, rfl⟩

/-- C7 amended: provider construction for an unlisted chain id falls back to
the first configured chain, failing with `ChainNotConfigured` only when the
chain list is empty; `switchChain` to an unlisted chain fails with
`SwitchChainError(ChainNotConfigured)` and emits no chain-changed event
(after having re-bound the provider to the fallback chain); for a listed
chain id, `switchChain` re-derives the provider, emits exactly one
chain-changed event, and returns the resolved chain. -/
theorem chain_switch_spec (env : ConnEnv) (st : ConnState) (cid : Nat) :
    (env.chains = [] → getProvider env st (some cid) = .error .chainNotConfigured) ∧
    (∀ c, env.chains.find? (fun y => y == cid) = some c → env.ctorFail cid = none →
      switchChain env st cid =
        .ok ({ st with
               walletClient := some { accountAddress := some env.address, chainId := cid } },
             [.chainChanged cid], cid)) ∧
    (env.chains.find? (fun y => y == cid) = none →
      ∀ h0 t0, env.chains = h0 :: t0 → env.ctorFail h0 = none →
        switchChain env st cid =
          .error ({ st with
                    walletClient := some { accountAddress := some env.address, chainId := h0 } },
                  [], .switchChainError .chainNotConfigured)) := by
  refine ⟨?_, ?_, ?_⟩
  · intro he
    simp [getProvider, resolveChain, he]
  · intro c hf hcf
    have hc : c = cid := by simpa using List.find?_some hf
    subst hc
    simp [switchChain, getProvider, resolveChain, hf, hcf]
  · intro hf h0 t0 he hcf
    have hf' : (h0 :: t0).find? (fun y => y == cid) = none := he ▸ hf
    simp [switchChain, getProvider, resolveChain, he, hf', hcf]

/-- C7 amended witness: switching to the listed chain 1 succeeds, re-binds
the provider, emits one chain-changed event, and returns chain 1. -/
theorem chain_switch_spec_witness :
    switchChain envOneChain initialConnState 1 =
      .ok ({ connected := true,
             walletClient := some { accountAddress := some "0xCSW", chainId := 1 } },
           [.chainChanged 1], 1) :=
  (((chain_switch_spec envOneChain initialConnState 1).2.1) 1 rfl rfl).trans rfl

/-- C8 counterexample: in the fresh connector's initial state (`connected`
starts `true`, the wallet client is still unassigned) `isAuthorized` raises:
`getAccounts` passes the connected guard and then reads a property of the
`undefined` wallet client. -/
theorem isAuthorized_initial_raises_counterexample :
    initialConnState.connected = true ∧
    isAuthorized initialConnState = .error .typeError :=
  ⟨rfl, rfl⟩

/-- C8 amended: `isAuthorized` returns false whenever not connected; when
connected with an assigned wallet client it returns true iff the bound
account list is non-empty; in the connected state with no wallet client yet
(the fresh connector's initial state) it raises a `TypeError` instead of
returning. -/
theorem isAuthorized_spec (st : ConnState) :
    (st.connected = false → isAuthorized st = .ok false) ∧
    (∀ w, st.connected = true → st.walletClient = some w →
      isAuthorized st = .ok (!(accountList w).isEmpty)) ∧
    (st.connected = true → st.walletClient = none →
      isAuthorized st = .error .typeError) := by
  refine ⟨?_, ?_, ?_⟩
  · intro h
    simp [isAuthorized, h]
  · intro w h hw
    simp [isAuthorized, getAccounts, h, hw, Except.map]
  · intro h hw
    simp [isAuthorized, getAccounts, h, hw, Except.map]

/-- C8 amended witness: a connected state bound to an account answers
`true`. -/
theorem isAuthorized_spec_witness :
    isAuthorized stBound = .ok true :=
  (((isAuthorized_spec stBound).2.1)
      { accountAddress := some "0xCSW", chainId := 8453 } rfl rfl).trans rfl

/-- C10: `getChainId` does not consult the `connected` flag; `disconnect`
only clears the flag, so after `disconnect` `getChainId` still returns the
previously bound chain id; and (for states whose bound chain id is nonzero,
as produced from real chain configurations) `getChainId` fails only when no
wallet client with a bound chain was ever created. -/
theorem getChainId_independent_of_connected (st : ConnState) (b : Bool)
    (hnz : ∀ w, st.walletClient = some w → w.chainId ≠ 0) :
    getChainId { st with connected := b } = getChainId st ∧
    disconnect st = { st with connected := false } ∧
    getChainId (disconnect st) = getChainId st ∧
    (∀ e, getChainId st = .error e → st.walletClient = none) := by
  refine ⟨rfl, rfl, rfl, ?_⟩
  intro e h
  cases hw : st.walletClient with
  | none => rfl
  | some w =>
    have hz := hnz w hw
    unfold getChainId at h
    rw [hw] at h
    simp [hz] at h

/-- C10 witness: after `disconnect`, the bound chain id 8453 is still
reported. -/
theorem getChainId_independent_of_connected_witness :
    getChainId (disconnect stBound) = .ok 8453 :=
  ((getChainId_independent_of_connected stBound false
      (by
        intro w hw
        simp only [stBound, Option.some.injEq] at hw
        subst hw
        decide)).2.2.1).trans rfl

end SwissKnife
